import Mathlib

/-!
Shallow embedding of `src/parser.py`, a CRSF (Crossfire RC link) telemetry
decoder, together with comparison definitions taken from the design
specification where the two must be diffed.

Conventions of the embedding:
* Python byte strings and bytearrays are `List Nat` with entries below 256.
* Python dynamic typing matters for `crc8_dvb_s2`: the program applies it to
  a byte slice, and `crc ^= byte` between an integer and a byte string
  raises a `TypeError`.  A small dynamic value type `PyVal` captures exactly
  the two runtime types that reach the function, and fallible computations
  return `Except String`.
* Python floats are modelled as exact rationals; the only claims that touch
  the float arithmetic are settled on the error path, where no rounding is
  involved.
* A function that prints a record and returns `None` is modelled as
  returning the printed record, and a diagnostic print followed by
  `return None` is modelled as `Except.ok none`.
-/

/-- Python runtime values reaching the checksum helpers: an unbounded
non-negative integer (every integer in this program is a byte or an 8-bit
accumulator, hence non-negative) or a byte string. -/
inductive PyVal where
| int : Nat → PyVal
| bytes : List Nat → PyVal
deriving DecidableEq

/-- `CRSF_SYNC = 0xC8` from the source. -/
def CRSF_SYNC : Nat := 0xC8

/-- `CRSF_MAX_PACKET_SIZE = 64` from the source. -/
def CRSF_MAX_PACKET_SIZE : Nat := 64

namespace CRSFPacketTypes

def GPS : Nat := 0x02

def VARIO : Nat := 0x07

def BATTERY_SENSOR : Nat := 0x08

def BARO_ALT : Nat := 0x09

def HEARTBEAT : Nat := 0x0B

def VIDEO_TRANSMITTER : Nat := 0x0F

def LINK_STATISTICS : Nat := 0x14

def RC_CHANNELS_PACKED : Nat := 0x16

def ATTITUDE : Nat := 0x1E

def FLIGHT_MODE : Nat := 0x21

def DEVICE_INFO : Nat := 0x29

def CONFIG_READ : Nat := 0x2C

def CONFIG_WRITE : Nat := 0x2D

def RADIO_ID : Nat := 0x3A

end CRSFPacketTypes

/-- One iteration of the loop body in `crc8_dvb_s2`: the source does not
mask inside the loop, only once after it. -/
def crc8_loop_body (crc : Nat) : Nat :=
  if crc &&& 0x80 ≠ 0 then (crc <<< 1) ^^^ 0xD5 else crc <<< 1

/-- The `for _ in range(8)` loop of `crc8_dvb_s2`. -/
def crc8_rounds : Nat → Nat → Nat
  | 0, crc => crc
  | n + 1, crc => crc8_rounds n (crc8_loop_body crc)

/-- The message of the `TypeError` raised by `crc ^= byte` when `byte` is a
byte string rather than an integer. -/
def typeErrorXor : String := "TypeError: unsupported operand types for xor"

/-- `def crc8_dvb_s2(crc, byte)` from the source, faithful to Python
dynamic typing: on two integers it XORs them, runs the 8-round loop and
masks the result to 8 bits once at the end; on any byte-string argument the
very first statement `crc ^= byte` raises a `TypeError`. -/
def crc8_dvb_s2 : PyVal → PyVal → Except String PyVal
  | .int crc, .int byte => .ok (.int (crc8_rounds 8 (crc ^^^ byte) &&& 0xFF))
  | _, _ => .error typeErrorXor

/-- Python `packet[-1]`: the last element, raising `IndexError` on an empty
sequence. -/
def pyLastByte (l : List Nat) : Except String Nat :=
  match l.getLast? with
  | some v => .ok v
  | none => .error "IndexError"

/-- `def crc8_check(packet): return crc8_dvb_s2(0, packet[2:-1]) == packet[-1]`
from the source.  `packet[2:-1]` is `(packet.drop 2).dropLast`; the slice is
passed whole as the `byte` argument of `crc8_dvb_s2`. -/
def crc8_check (packet : List Nat) : Except String Bool := do
  let r ← crc8_dvb_s2 (.int 0) (.bytes ((packet.drop 2).dropLast))
  let last ← pyLastByte packet
  pure (r == PyVal.int last)

/-- Modelled from the spec (section 4.2): one step of the per-byte CRC rule,
masking to 8 bits after each step.  Used only to compare the source CRC
against the specified one. -/
def spec_crc8_step (crc : Nat) : Nat :=
  (if crc &&& 0x80 ≠ 0 then (crc <<< 1) ^^^ 0xD5 else crc <<< 1) &&& 0xFF

/-- Modelled from the spec: the 8 masked steps. -/
def spec_crc8_rounds : Nat → Nat → Nat
  | 0, crc => crc
  | n + 1, crc => spec_crc8_rounds n (spec_crc8_step crc)

/-- Modelled from the spec: the per-byte update (XOR in, then 8 masked
steps). -/
def spec_crc8_update (crc byte : Nat) : Nat :=
  spec_crc8_rounds 8 (crc ^^^ byte)

/-- Modelled from the spec: CRC-8/DVB-S2 over a byte list, initial value 0,
folding the per-byte update. -/
def spec_crc8 (bytes : List Nat) : Nat :=
  bytes.foldl spec_crc8_update 0

/-- Modelled from the spec: a frame is checksum-valid iff the CRC over the
bytes at offsets 2 .. frame_total_length-2 equals the last byte. -/
def spec_checksum_valid (frame : List Nat) : Bool :=
  spec_crc8 ((frame.drop 2).dropLast) == frame.getLastD 0

/-- Two's-complement reading of a `w`-bit unsigned value, as `struct.unpack`
does for the signed formats `>i`, `>h` and `b`. -/
def toSigned (w n : Nat) : Int :=
  if n < 2 ^ (w - 1) then (n : Int) else (n : Int) - 2 ^ w

/-- Big-endian value of a byte list. -/
def bytesBE (l : List Nat) : Nat :=
  l.foldl (fun a b => a * 256 + b) 0

/-- Python slice `l[a:b]` with non-negative bounds: truncating, never
raising. -/
def pySlice (l : List Nat) (a b : Nat) : List Nat :=
  (l.drop a).take (b - a)

/-- `struct.unpack` of one big-endian unsigned field of `width` bytes:
raises `struct.error` unless the buffer has exactly `width` bytes. -/
def unpackBE (width : Nat) (l : List Nat) : Except String Nat :=
  if l.length = width then .ok (bytesBE l) else .error "struct.error"

/-- Python `l[i]` for a non-negative index: raises `IndexError` when out of
range. -/
def pyIndex (l : List Nat) (i : Nat) : Except String Nat :=
  match l.get? i with
  | some v => .ok v
  | none => .error "IndexError"

/-- The record printed by one branch of `parse_crsf_packet`.  The Python
function prints and returns `None`; the printed record is modelled as the
returned event.  Python floats are modelled as exact rationals.  The
`flightMode` text is kept as its list of character codes (`chr` is injective
on bytes). -/
inductive CRSFEvent where
| linkStats (rssi1 rssi2 lq : Nat) (snr : Int)
| battery (voltage : ℚ)
| gps (lat lon speed : ℚ) (altitude : Int) (sats : Nat)
| attitude (pitch roll yaw : ℚ)
| flightMode (mode : List Nat)
| unknown (ptype : Nat) (data : List Nat)
deriving DecidableEq

/-- `def parse_crsf_packet(packet)` from the source.  `Except.ok none`
models a diagnostic print followed by `return None`; `Except.ok (some e)`
models a printed record; `Except.error` models an uncaught exception.
The two guards return before the checksum is touched; after them the call
to `crc8_check` hands a byte slice to `crc8_dvb_s2`, which raises. -/
def parse_crsf_packet (packet : List Nat) : Except String (Option CRSFEvent) :=
  if packet.length < 4 then .ok none
  else if packet.getD 0 0 ≠ CRSF_SYNC then .ok none
  else do
    let crc_ok ← crc8_check packet
    if ¬ crc_ok then pure none
    else
      let packet_type := packet.getD 2 0
      if packet_type = CRSFPacketTypes.LINK_STATISTICS then do
        let rssi1 ← pyIndex packet 3
        let rssi2 ← pyIndex packet 4
        let lq ← pyIndex packet 5
        let b6 ← pyIndex packet 6
        pure (some (.linkStats rssi1 rssi2 lq (toSigned 8 b6)))
      else if packet_type = CRSFPacketTypes.BATTERY_SENSOR then do
        let v ← unpackBE 2 (pySlice packet 3 5)
        pure (some (.battery ((v : ℚ) / 10)))
      else if packet_type = CRSFPacketTypes.GPS then do
        let latRaw ← unpackBE 4 (pySlice packet 3 7)
        let lonRaw ← unpackBE 4 (pySlice packet 7 11)
        let spdRaw ← unpackBE 2 (pySlice packet 11 13)
        let altRaw ← unpackBE 2 (pySlice packet 15 17)
        let sats ← pyIndex packet 17
        pure (some (.gps ((toSigned 32 latRaw : ℚ) / 10000000)
          ((toSigned 32 lonRaw : ℚ) / 10000000)
          ((spdRaw : ℚ) / 36) ((altRaw : Int) - 1000) sats))
      else if packet_type = CRSFPacketTypes.ATTITUDE then do
        let p ← unpackBE 2 (pySlice packet 3 5)
        let r ← unpackBE 2 (pySlice packet 5 7)
        let y ← unpackBE 2 (pySlice packet 7 9)
        pure (some (.attitude ((toSigned 16 p : ℚ) / 10000)
          ((toSigned 16 r : ℚ) / 10000) ((toSigned 16 y : ℚ) / 10000)))
      else if packet_type = CRSFPacketTypes.FLIGHT_MODE then
        pure (some (.flightMode ((packet.drop 3).take (packet.length - 5))))
      else
        pure (some (.unknown packet_type packet))

/-- The inner `while len(buffer) >= 4` loop of `read_crsf_serial`, returning
the packets handed to `parse_crsf_packet` and the remaining buffer.  On an
out-of-range declared length the source prints a diagnostic, clears the
whole buffer and breaks.  `fuel` bounds the iteration count only so the
recursion is structural; every iteration removes at least 4 bytes, so
`buffer.length` iterations always suffice and the fuel never runs out. -/
def crsf_drain_loop : Nat → List Nat → List (List Nat) × List Nat
  | 0, buffer => ([], buffer)
  | fuel + 1, buffer =>
    if 4 ≤ buffer.length then
      -- expected_len = buffer[1] + 2, inlined below
      if buffer.getD 1 0 + 2 > CRSF_MAX_PACKET_SIZE ∨ buffer.getD 1 0 + 2 < 4 then
        ([], [])
      else if buffer.getD 1 0 + 2 ≤ buffer.length then
        let rest := crsf_drain_loop fuel (buffer.drop (buffer.getD 1 0 + 2))
        (buffer.take (buffer.getD 1 0 + 2) :: rest.1, rest.2)
      else ([], buffer)
    else ([], buffer)

/-- Draining the buffer: the inner loop of `read_crsf_serial` run to
completion on the current buffer. -/
def drain_buffer (buffer : List Nat) : List (List Nat) × List Nat :=
  crsf_drain_loop buffer.length buffer

/-- The outer loop of `read_crsf_serial`: each serial read appends a chunk
to the buffer and then the inner loop drains it.  Returns all packets handed
to `parse_crsf_packet`, in order, and the final buffer. -/
def run_chunks : List Nat → List (List Nat) → List (List Nat) × List Nat
  | buffer, [] => ([], buffer)
  | buffer, chunk :: chunks =>
    let fed := drain_buffer (buffer ++ chunk)
    let rest := run_chunks fed.2 chunks
    (fed.1 ++ rest.1, rest.2)

/-- `def read_crsf_serial(port, baud_rate)` from the source, with the serial
port abstracted to the list of chunks its reads deliver, starting from an
empty buffer. -/
def read_crsf_serial (chunks : List (List Nat)) : List (List Nat) × List Nat :=
  run_chunks [] chunks

/-- The decode outcomes of the packets extracted by `read_crsf_serial`. -/
def read_crsf_serial_events (chunks : List (List Nat)) :
    List (Except String (Option CRSFEvent)) :=
  (read_crsf_serial chunks).1.map parse_crsf_packet

/-- The spec appendix GPS sample: sync, length 0x11, type GPS, payload
lat=+377749000, lon=-1224194000, groundspeed=360, heading=0, altitude=2000,
satellites=12 (all big-endian), and the CRC-8/DVB-S2 byte 0x74 over
type+payload. -/
def gps_sample_frame : List Nat :=
  [0xC8, 0x11, 0x02, 0x16, 0x83, 0xFE, 0x08, 0xB7, 0x08, 0x48, 0x30,
   0x01, 0x68, 0x00, 0x00, 0x07, 0xD0, 0x0C, 0x74]

/-- A Flight Mode sample frame: sync, length 7, type 0x21, payload
"MANU" plus one trailing null byte, and the CRC-8/DVB-S2 byte 0x44 over
type+payload. -/
def flight_mode_sample_frame : List Nat :=
  [0xC8, 0x07, 0x21, 0x4D, 0x41, 0x4E, 0x55, 0x00, 0x44]

/-! ## Checksum lemmas -/

lemma testBit_255 (i : Nat) : Nat.testBit 255 i = decide (i < 8) := by
  have h : (255 : Nat) = 2 ^ 8 - 1 := by norm_num
  rw [h, Nat.testBit_two_pow_sub_one]

lemma mask255_eq_of_testBit (a b : Nat) (h : ∀ i, i < 8 → a.testBit i = b.testBit i) :
    a &&& 255 = b &&& 255 := by
  apply Nat.eq_of_testBit_eq
  intro i
  rw [Nat.testBit_and, Nat.testBit_and, testBit_255]
  by_cases hi : i < 8
  · rw [h i hi]
  · simp [hi]

lemma and255_of_lt (a : Nat) (h : a < 256) : a &&& 255 = a := by
  apply Nat.eq_of_testBit_eq
  intro i
  rw [Nat.testBit_and, testBit_255]
  by_cases hi : i < 8
  · simp [hi]
  · have h8 : 8 ≤ i := Nat.le_of_not_lt hi
    have h2i : (256 : Nat) ≤ 2 ^ i := by
      calc (256 : Nat) = 2 ^ 8 := by norm_num
        _ ≤ 2 ^ i := Nat.pow_le_pow_right (by norm_num) h8
    have hlt : a < 2 ^ i := by omega
    simp [hi, Nat.testBit_lt_two_pow hlt]

lemma crc8_loop_body_mask (x : Nat) :
    crc8_loop_body x &&& 255 = crc8_loop_body (x &&& 255) &&& 255 := by
  have h255128 : (255 : Nat) &&& 128 = 128 := by decide
  have hcond : (x &&& 255) &&& 128 = x &&& 128 := by
    rw [Nat.and_assoc, h255128]
  have hbit : ∀ i, i < 8 → (x &&& 255).testBit i = x.testBit i := by
    intro i hi
    rw [Nat.testBit_and, testBit_255]
    simp [hi]
  unfold crc8_loop_body
  rw [hcond]
  by_cases hc : x &&& 128 ≠ 0
  · simp only [if_pos hc]
    apply mask255_eq_of_testBit
    intro i hi
    rw [Nat.testBit_xor, Nat.testBit_xor, Nat.testBit_shiftLeft, Nat.testBit_shiftLeft]
    by_cases h1 : i ≥ 1
    · have h18 : i - 1 < 8 := lt_of_le_of_lt (Nat.sub_le i 1) hi
      rw [hbit (i - 1) h18]
    · simp [h1]
  · simp only [if_neg hc]
    apply mask255_eq_of_testBit
    intro i hi
    rw [Nat.testBit_shiftLeft, Nat.testBit_shiftLeft]
    by_cases h1 : i ≥ 1
    · have h18 : i - 1 < 8 := lt_of_le_of_lt (Nat.sub_le i 1) hi
      rw [hbit (i - 1) h18]
    · simp [h1]

lemma crc8_rounds_mask (n : Nat) :
    ∀ x, crc8_rounds n x &&& 255 = spec_crc8_rounds n (x &&& 255) := by
  induction n with
  | zero => intro x; rfl
  | succ n ih =>
    intro x
    show crc8_rounds n (crc8_loop_body x) &&& 255 = spec_crc8_rounds n (spec_crc8_step (x &&& 255))
    rw [ih (crc8_loop_body x), crc8_loop_body_mask x]
    rfl

lemma spec_crc8_rounds_lt (n : Nat) : ∀ x, x < 256 → spec_crc8_rounds n x < 256 := by
  induction n with
  | zero => intro x hx; exact hx
  | succ n ih =>
    intro x hx
    show spec_crc8_rounds n (spec_crc8_step x) < 256
    apply ih
    unfold spec_crc8_step
    exact Nat.lt_of_le_of_lt Nat.and_le_right (by norm_num)

lemma crc8_update_eq_spec (crc byte : Nat) (hc : crc < 256) (hb : byte < 256) :
    crc8_rounds 8 (crc ^^^ byte) &&& 0xFF = spec_crc8_update crc byte := by
  have h256 : (256 : Nat) = 2 ^ 8 := by norm_num
  have hxor : crc ^^^ byte < 256 := by
    rw [h256]
    exact Nat.xor_lt_two_pow (h256 ▸ hc) (h256 ▸ hb)
  show crc8_rounds 8 (crc ^^^ byte) &&& 255 = spec_crc8_update crc byte
  rw [crc8_rounds_mask 8 (crc ^^^ byte), and255_of_lt _ hxor]
  rfl

/-! ## Claim theorems -/

/-- C6: for every 8-bit accumulator value and every input byte, one step of
the source checksum update (`crc8_dvb_s2` applied to two integers) equals
the per-byte rule of the spec, which masks to 8 bits after each of the 8
shift steps; in particular the single final mask of the source yields the
same result as masking after every step, and the returned value is below
256. -/
theorem crc8_dvb_s2_matches_spec (crc : Nat) (hc : crc < 256) (byte : Nat) (hb : byte < 256) :
    crc8_dvb_s2 (.int crc) (.int byte) = .ok (.int (spec_crc8_update crc byte)) ∧
    spec_crc8_update crc byte < 256 := by
  constructor
  · show Except.ok (PyVal.int (crc8_rounds 8 (crc ^^^ byte) &&& 0xFF)) = _
    rw [crc8_update_eq_spec crc byte hc hb]
  · unfold spec_crc8_update
    apply spec_crc8_rounds_lt
    have h256 : (256 : Nat) = 2 ^ 8 := by norm_num
    rw [h256]
    exact Nat.xor_lt_two_pow (h256 ▸ hc) (h256 ▸ hb)

/-- Witness for C6 at accumulator 0xAB and byte 0x42. -/
theorem crc8_dvb_s2_matches_spec_witness :
    crc8_dvb_s2 (.int 0xAB) (.int 0x42) = .ok (.int (spec_crc8_update 0xAB 0x42)) ∧
    spec_crc8_update 0xAB 0x42 < 256 :=
  crc8_dvb_s2_matches_spec 0xAB (by norm_num) 0x42 (by norm_num)

/-! ## Frame assembler lemmas -/

lemma crsf_drain_loop_short (fuel : Nat) (b : List Nat) (h : b.length < 4) :
    crsf_drain_loop fuel b = ([], b) := by
  cases fuel with
  | zero => rfl
  | succ n =>
    simp only [crsf_drain_loop]
    rw [if_neg (by omega)]

lemma crsf_drain_loop_wait (fuel : Nat) (b : List Nat) (h4 : 4 ≤ b.length)
    (hlo : 4 ≤ b.getD 1 0 + 2) (hhi : b.getD 1 0 + 2 ≤ 64)
    (hgt : b.length < b.getD 1 0 + 2) :
    crsf_drain_loop fuel b = ([], b) := by
  cases fuel with
  | zero => rfl
  | succ n =>
    simp only [crsf_drain_loop, CRSF_MAX_PACKET_SIZE]
    rw [if_pos h4, if_neg (by omega), if_neg (by omega)]

lemma drain_buffer_bad_len (b : List Nat) (h4 : 4 ≤ b.length)
    (hbad : b.getD 1 0 + 2 > 64 ∨ b.getD 1 0 + 2 < 4) :
    drain_buffer b = ([], []) := by
  unfold drain_buffer
  obtain ⟨k, hk⟩ : ∃ k, b.length = k + 1 := ⟨b.length - 1, by omega⟩
  rw [hk]
  simp only [crsf_drain_loop, CRSF_MAX_PACKET_SIZE]
  rw [if_pos (by omega), if_pos (by omega)]

lemma drain_buffer_full_frame (f : List Nat) (h4 : 4 ≤ f.length) (h64 : f.length ≤ 64)
    (hlen : f.getD 1 0 + 2 = f.length) :
    drain_buffer f = ([f], []) := by
  unfold drain_buffer
  obtain ⟨k, hk⟩ : ∃ k, f.length = k + 1 := ⟨f.length - 1, by omega⟩
  rw [hk]
  simp only [crsf_drain_loop, CRSF_MAX_PACKET_SIZE]
  rw [if_pos (by omega), if_neg (by omega), if_pos (by omega)]
  rw [hlen, List.take_length, List.drop_length, crsf_drain_loop_short k [] (by simp)]

lemma drain_buffer_partial (f : List Nat) (h4 : 4 ≤ f.length) (h64 : f.length ≤ 64)
    (hlen : f.getD 1 0 + 2 = f.length) (m : Nat) (hm : m < f.length) :
    drain_buffer (f.take m) = ([], f.take m) := by
  have hlt : (f.take m).length = m := by
    rw [List.length_take]
    omega
  unfold drain_buffer
  by_cases h : m < 4
  · exact crsf_drain_loop_short _ _ (by omega)
  · have hgd : (f.take m).getD 1 0 = f.getD 1 0 := by
      rw [List.getD_eq_getElem?_getD, List.getD_eq_getElem?_getD, List.getElem?_take,
        if_pos (by omega : 1 < m)]
    refine crsf_drain_loop_wait _ _ (by omega) ?_ ?_ ?_
    · rw [hgd]; omega
    · rw [hgd]; omega
    · rw [hgd]; omega

lemma flatten_map_singleton (l : List Nat) : (l.map fun b => [b]).flatten = l := by
  induction l with
  | nil => rfl
  | cons a t ih => simp [ih]

lemma run_chunks_empties : ∀ cs : List (List Nat), cs.flatten = [] →
    run_chunks [] cs = ([], []) := by
  intro cs
  induction cs with
  | nil => intro _; rfl
  | cons c cs ih =>
    intro h
    rw [List.flatten_cons] at h
    have hc := List.append_eq_nil.mp h
    show run_chunks [] (c :: cs) = ([], [])
    simp only [run_chunks]
    rw [hc.1]
    have hd : drain_buffer ([] ++ ([] : List Nat)) = ([], []) := rfl
    rw [hd]
    simp [ih hc.2]

lemma run_chunks_mid (f : List Nat) (h4 : 4 ≤ f.length) (h64 : f.length ≤ 64)
    (hlen : f.getD 1 0 + 2 = f.length) :
    ∀ (cs : List (List Nat)) (m : Nat), m < f.length → cs.flatten = f.drop m →
      run_chunks (f.take m) cs = ([f], []) := by
  intro cs
  induction cs with
  | nil =>
    intro m hm h
    exfalso
    rw [List.flatten_nil] at h
    have := List.drop_eq_nil_iff.mp h.symm
    omega
  | cons c cs ih =>
    intro m hm h
    rw [List.flatten_cons] at h
    have hc : c = (f.drop m).take c.length := by
      rw [← h]
      exact (List.take_left c cs.flatten).symm
    have hrest : cs.flatten = (f.drop m).drop c.length := by
      rw [← h]
      exact (List.drop_left c cs.flatten).symm
    have hlensum : c.length + cs.flatten.length = f.length - m := by
      have h2 := congrArg List.length h
      simp only [List.length_append, List.length_drop] at h2
      omega
    have hlenle : m + c.length ≤ f.length := by omega
    have hbuf : f.take m ++ c = f.take (m + c.length) := by
      rw [List.take_add, ← hc]
    rcases Nat.lt_or_ge (m + c.length) f.length with hlt | hge
    · show run_chunks (f.take m) (c :: cs) = ([f], [])
      simp only [run_chunks]
      rw [hbuf, drain_buffer_partial f h4 h64 hlen _ hlt]
      have hflat : cs.flatten = f.drop (m + c.length) := by
        rw [hrest, List.drop_drop]
      simp [ih (m + c.length) hlt hflat]
    · have heq : m + c.length = f.length := le_antisymm hlenle hge
      show run_chunks (f.take m) (c :: cs) = ([f], [])
      simp only [run_chunks]
      rw [hbuf, heq, List.take_length, drain_buffer_full_frame f h4 h64 hlen]
      have hflat : cs.flatten = [] := by
        rw [hrest, List.drop_drop, heq, List.drop_length]
      simp [run_chunks_empties cs hflat]

lemma crc8_check_always_raises (packet : List Nat) :
    crc8_check packet = .error typeErrorXor := rfl

/-- C8: feeding a complete, well-formed frame byte by byte extracts the same
single packet and hence the same decode outcome as feeding it in one chunk;
more generally the result is the same for every chunking of the frame. -/
theorem read_crsf_serial_chunk_invariance (f : List Nat) (h4 : 4 ≤ f.length)
    (h64 : f.length ≤ 64) (hlen : f.getD 1 0 + 2 = f.length) :
    read_crsf_serial (f.map fun b => [b]) = ([f], []) ∧
    read_crsf_serial [f] = ([f], []) ∧
    read_crsf_serial_events (f.map fun b => [b]) = read_crsf_serial_events [f] ∧
    ∀ cs : List (List Nat), cs.flatten = f → read_crsf_serial cs = ([f], []) := by
  have hgen : ∀ cs : List (List Nat), cs.flatten = f → read_crsf_serial cs = ([f], []) := by
    intro cs hcs
    have h0 : (0 : Nat) < f.length := by omega
    have hmid := run_chunks_mid f h4 h64 hlen cs 0 h0 (by simpa using hcs)
    simpa [read_crsf_serial] using hmid
  have h1 : (f.map fun b => [b]).flatten = f := flatten_map_singleton f
  have h2 : ([f] : List (List Nat)).flatten = f := by simp
  refine ⟨hgen _ h1, hgen _ h2, ?_, hgen⟩
  unfold read_crsf_serial_events
  rw [hgen _ h1, hgen _ h2]

/-- Witness for C8 on a concrete well-formed 6-byte frame. -/
theorem read_crsf_serial_chunk_invariance_witness :
    (4 ≤ ([0xC8, 0x04, 0x14, 0x01, 0x02, 0x03] : List Nat).length ∧
      ([0xC8, 0x04, 0x14, 0x01, 0x02, 0x03] : List Nat).length ≤ 64 ∧
      ([0xC8, 0x04, 0x14, 0x01, 0x02, 0x03] : List Nat).getD 1 0 + 2 =
        ([0xC8, 0x04, 0x14, 0x01, 0x02, 0x03] : List Nat).length) ∧
    read_crsf_serial ([0xC8, 0x04, 0x14, 0x01, 0x02, 0x03].map fun b => [b]) =
      ([[0xC8, 0x04, 0x14, 0x01, 0x02, 0x03]], []) :=
  ⟨⟨by decide, by decide, by decide⟩,
    (read_crsf_serial_chunk_invariance [0xC8, 0x04, 0x14, 0x01, 0x02, 0x03]
      (by decide) (by decide) (by decide)).1⟩

/-- C10: inputs shorter than 4 bytes, or not starting with the sync marker,
make `parse_crsf_packet` return the no-event result without raising and
without touching the checksum (whose computation would raise). -/
theorem parse_crsf_packet_interface_guard (packet : List Nat)
    (h : packet.length < 4 ∨ packet.getD 0 0 ≠ CRSF_SYNC) :
    parse_crsf_packet packet = .ok none := by
  unfold parse_crsf_packet
  rcases h with h | h
  · rw [if_pos h]
  · by_cases hl : packet.length < 4
    · rw [if_pos hl]
    · rw [if_neg hl, if_pos h]

/-- Witness for C10 on a 2-byte input. -/
theorem parse_crsf_packet_interface_guard_witness :
    (([0x16, 0x02] : List Nat).length < 4 ∨
      ([0x16, 0x02] : List Nat).getD 0 0 ≠ CRSF_SYNC) ∧
    parse_crsf_packet [0x16, 0x02] = .ok none :=
  ⟨Or.inl (by decide), parse_crsf_packet_interface_guard [0x16, 0x02] (Or.inl (by decide))⟩

/-- C3: `crc8_check` does not report validity at all: it hands the whole
slice `packet[2:-1]` to `crc8_dvb_s2` as its single byte argument and raises
a `TypeError`, even on this frame that the specified CRC reports valid. -/
theorem crc8_check_raises_type_error :
    crc8_check [0xC8, 0x02, 0x00, 0x00] = .error typeErrorXor ∧
    spec_checksum_valid [0xC8, 0x02, 0x00, 0x00] = true :=
  ⟨rfl, by decide⟩

/-- C4: a 4-to-64-byte candidate frame beginning with the sync byte makes
`parse_crsf_packet` raise (the `TypeError` from checksum validation) rather
than complete without an exception. -/
theorem parse_crsf_packet_raises_on_wellformed_frame :
    (4 ≤ ([0xC8, 0x03, 0x16, 0x01, 0xAB] : List Nat).length ∧
      ([0xC8, 0x03, 0x16, 0x01, 0xAB] : List Nat).length ≤ 64 ∧
      ([0xC8, 0x03, 0x16, 0x01, 0xAB] : List Nat).getD 0 0 = CRSF_SYNC) ∧
    parse_crsf_packet [0xC8, 0x03, 0x16, 0x01, 0xAB] = .error typeErrorXor :=
  ⟨by decide, rfl⟩

/-- C1 counterexample: on a buffer whose declared length is out of range the
inner loop clears the whole 4-byte buffer; the remaining buffer is empty,
not the 3-byte suffix a single-byte drop would leave. -/
theorem drain_buffer_clear_counterexample :
    drain_buffer [0xC8, 0x00, 0xAA, 0xBB] = ([], []) ∧
    (drain_buffer [0xC8, 0x00, 0xAA, 0xBB]).2 ≠ [0x00, 0xAA, 0xBB] := by
  decide

/-- C1 (amended): whenever the declared length `buffer[1] + 2` is out of the
range 4..64, the assembler discards the entire buffer and stops extracting,
rather than dropping one byte and rescanning. -/
theorem drain_buffer_bad_length_discards_all (buffer : List Nat)
    (h4 : 4 ≤ buffer.length)
    (hbad : buffer.getD 1 0 + 2 > CRSF_MAX_PACKET_SIZE ∨ buffer.getD 1 0 + 2 < 4) :
    drain_buffer buffer = ([], []) := by
  have h64 : buffer.getD 1 0 + 2 > 64 ∨ buffer.getD 1 0 + 2 < 4 := by
    simpa [CRSF_MAX_PACKET_SIZE] using hbad
  exact drain_buffer_bad_len buffer h4 h64

/-- Witness for the amended C1 at a buffer declaring length 65. -/
theorem drain_buffer_bad_length_discards_all_witness :
    (4 ≤ ([0xC8, 0x3F, 0x01, 0x02] : List Nat).length ∧
      (([0xC8, 0x3F, 0x01, 0x02] : List Nat).getD 1 0 + 2 > CRSF_MAX_PACKET_SIZE ∨
        ([0xC8, 0x3F, 0x01, 0x02] : List Nat).getD 1 0 + 2 < 4)) ∧
    drain_buffer [0xC8, 0x3F, 0x01, 0x02] = ([], []) :=
  ⟨⟨by decide, by decide⟩,
    drain_buffer_bad_length_discards_all [0xC8, 0x3F, 0x01, 0x02] (by decide) (by decide)⟩

/-- C2 counterexample: a stream holding one well-formed, checksum-valid
frame preceded by a single noise byte yields no frame at all: the assembler
never scans for the sync byte, misreads the length field and clears the
buffer. -/
theorem sync_scan_counterexample :
    spec_checksum_valid [0xC8, 0x02, 0x00, 0x00] = true ∧
    ([0xC8, 0x02, 0x00, 0x00] : List Nat).getD 1 0 + 2 = 4 ∧
    (read_crsf_serial [[0x00, 0xC8, 0x02, 0x00, 0x00]]).1 = [] ∧
    (read_crsf_serial [[0x00, 0xC8, 0x02, 0x00, 0x00]]).1 ≠ [[0xC8, 0x02, 0x00, 0x00]] := by
  decide

/-- C2 (amended): there is no sync-byte scan.  Any single byte in front of
a frame that starts with the sync byte 0xC8 makes the assembler read the
frame's sync byte as a length field (0xC8 + 2 = 202 > 64) and clear the
whole buffer, frame included. -/
theorem drain_buffer_noise_prefix_discards_frame (b : Nat) (f : List Nat)
    (hf0 : f.getD 0 0 = CRSF_SYNC) (hf3 : 3 ≤ f.length) :
    drain_buffer (b :: f) = ([], []) := by
  apply drain_buffer_bad_len
  · simp only [List.length_cons]
    omega
  · left
    have hg : (b :: f).getD 1 0 = f.getD 0 0 := rfl
    rw [hg, hf0]
    norm_num [CRSF_SYNC]

/-- Witness for the amended C2 with noise byte 0x00. -/
theorem drain_buffer_noise_prefix_discards_frame_witness :
    (([0xC8, 0x05, 0x01, 0x02, 0x03] : List Nat).getD 0 0 = CRSF_SYNC ∧
      3 ≤ ([0xC8, 0x05, 0x01, 0x02, 0x03] : List Nat).length) ∧
    drain_buffer (0x00 :: [0xC8, 0x05, 0x01, 0x02, 0x03]) = ([], []) :=
  ⟨⟨by decide, by decide⟩,
    drain_buffer_noise_prefix_discards_frame 0x00 [0xC8, 0x05, 0x01, 0x02, 0x03]
      (by decide) (by decide)⟩

/-- C5 counterexample: a checksum-valid GPS frame with an empty payload does
not produce any malformed-payload diagnostic (none exists in the code);
`parse_crsf_packet` raises at checksum validation. -/
theorem malformed_payload_counterexample :
    spec_checksum_valid [0xC8, 0x02, 0x02, 0x7F] = true ∧
    ([0xC8, 0x02, 0x02, 0x7F] : List Nat).getD 2 0 = CRSFPacketTypes.GPS ∧
    parse_crsf_packet [0xC8, 0x02, 0x02, 0x7F] = .error typeErrorXor :=
  ⟨by decide, by decide, rfl⟩

set_option linter.unusedVariables false in
/-- C5 (amended): for every candidate frame of any recognized type (GPS,
Battery, Link Statistics, Attitude or Flight Mode) that reaches checksum
validation, `parse_crsf_packet` raises the checksum `TypeError` before any
payload inspection; no `MalformedPayload` diagnostic is ever produced.
The type hypothesis scopes the statement to the frames of the claim; the
exception fires before the type is ever inspected. -/
theorem parse_crsf_packet_recognized_short_payload_raises (packet : List Nat)
    (h4 : 4 ≤ packet.length) (hs : packet.getD 0 0 = CRSF_SYNC)
    (ht : packet.getD 2 0 = CRSFPacketTypes.GPS ∨
      packet.getD 2 0 = CRSFPacketTypes.BATTERY_SENSOR ∨
      packet.getD 2 0 = CRSFPacketTypes.LINK_STATISTICS ∨
      packet.getD 2 0 = CRSFPacketTypes.ATTITUDE ∨
      packet.getD 2 0 = CRSFPacketTypes.FLIGHT_MODE) :
    parse_crsf_packet packet = .error typeErrorXor := by
  unfold parse_crsf_packet
  rw [if_neg (by omega), if_neg (fun hne => hne hs)]
  rw [crc8_check_always_raises]
  rfl

/-- Witness for the amended C5 on a GPS frame with a 1-byte payload. -/
theorem parse_crsf_packet_recognized_short_payload_raises_witness :
    (4 ≤ ([0xC8, 0x0A, 0x02, 0x01] : List Nat).length ∧
      ([0xC8, 0x0A, 0x02, 0x01] : List Nat).getD 0 0 = CRSF_SYNC ∧
      ([0xC8, 0x0A, 0x02, 0x01] : List Nat).getD 2 0 = CRSFPacketTypes.GPS) ∧
    parse_crsf_packet [0xC8, 0x0A, 0x02, 0x01] = .error typeErrorXor :=
  ⟨⟨by decide, by decide, by decide⟩,
    parse_crsf_packet_recognized_short_payload_raises [0xC8, 0x0A, 0x02, 0x01]
      (by decide) (by decide) (Or.inl (by decide))⟩

set_option maxRecDepth 10000 in
/-- C7: the spec GPS sample frame is checksum-valid and its payload bytes
carry exactly the claimed field values, but `parse_crsf_packet` raises the
checksum `TypeError` instead of producing the GPS event. -/
theorem gps_sample_frame_decode_raises :
    spec_checksum_valid gps_sample_frame = true ∧
    gps_sample_frame.getD 2 0 = CRSFPacketTypes.GPS ∧
    toSigned 32 (bytesBE (pySlice gps_sample_frame 3 7)) = 377749000 ∧
    toSigned 32 (bytesBE (pySlice gps_sample_frame 7 11)) = -1224194000 ∧
    bytesBE (pySlice gps_sample_frame 11 13) = 360 ∧
    bytesBE (pySlice gps_sample_frame 15 17) = 2000 ∧
    gps_sample_frame.getD 17 0 = 12 ∧
    parse_crsf_packet gps_sample_frame = .error typeErrorXor :=
  ⟨by decide, by decide, by decide, by decide, by decide, by decide, by decide, rfl⟩

set_option maxRecDepth 10000 in
/-- C9: a checksum-valid Flight Mode frame whose bytes at offsets
3 .. length-3 spell "MANU" never gets its text decoded: `parse_crsf_packet`
raises the checksum `TypeError` first. -/
theorem flight_mode_sample_frame_decode_raises :
    spec_checksum_valid flight_mode_sample_frame = true ∧
    flight_mode_sample_frame.getD 2 0 = CRSFPacketTypes.FLIGHT_MODE ∧
    (flight_mode_sample_frame.drop 3).take (flight_mode_sample_frame.length - 5) =
      [0x4D, 0x41, 0x4E, 0x55] ∧
    parse_crsf_packet flight_mode_sample_frame = .error typeErrorXor :=
  ⟨by decide, by decide, by decide, rfl⟩
